import Mathlib

/-!
Verification of the LingoSnap capture-translate-replace orchestrator
(`main.go`).  The Go program is shallowly embedded: each run of
`processSelectedText` is modelled as a pure function of a `RunEnv` that
records the state of the OS clipboard, the effect of the simulated copy
keystroke, the success of each clipboard primitive, and the behaviour of
the remote Gemini call.  The hotkey-listener rebind (`restartHotkeyListener`
/ `runHotkeyListener`) is modelled as a small labelled transition system on
the two listener goroutines.
-/

namespace LingoSnap

/-- Go `unicode.IsSpace`: the White_Space code points trimmed by
`strings.TrimSpace`. -/
def isGoSpace (c : Char) : Bool :=
  c.val = 9 || c.val = 10 || c.val = 11 || c.val = 12 || c.val = 13 ||
  c.val = 32 || c.val = 0x85 || c.val = 0xA0 || c.val = 0x1680 ||
  (0x2000 ≤ c.val && c.val ≤ 0x200A) || c.val = 0x2028 || c.val = 0x2029 ||
  c.val = 0x202F || c.val = 0x205F || c.val = 0x3000

/-- Go `strings.TrimSpace`: drop leading and trailing White_Space runes. -/
def goTrimSpace (s : String) : String :=
  String.mk (((s.data.dropWhile isGoSpace).reverse.dropWhile isGoSpace).reverse)

/-- `type Prompt struct { Title, Text string }`. -/
structure Prompt where
  title : String
  text : String
deriving DecidableEq, Repr

/-- `type Config struct` (main.go lines 34-40). -/
structure Config where
  apiKey : String
  model : String
  hotkey : String
  prompts : List Prompt
  selectedPrompt : String
deriving DecidableEq, Repr

/-- `const defaultPromptTitle` (main.go line 42). -/
def defaultPromptTitle : String := "Default"

/-- `const defaultPromptText` (main.go lines 43-46). -/
def defaultPromptText : String :=
  "Translate this text to English and fix any grammar or spelling errors.\n" ++
  "If the text is already in English, just correct any errors.\n" ++
  "If it's in Armenian (including transliterated Armenian), translate to English.\n" ++
  "Return only the corrected/translated text without any additional comments or explanations."

/-- Prompt resolution at trigger time (main.go lines 247-250):
`promptText := defaultPromptText; if t.selectedIndex > 0 &&
t.selectedIndex-1 < len(t.config.Prompts) { promptText =
t.config.Prompts[t.selectedIndex-1].Text }`.  `selectedIndex` is a Go
`int`, modelled as `Int`. -/
def resolvePrompt (selectedIndex : Int) (prompts : List Prompt) : String :=
  if h : 0 < selectedIndex ∧ selectedIndex - 1 < (prompts.length : Int) then
    (prompts.get ⟨(selectedIndex - 1).toNat, by omega⟩).text
  else
    defaultPromptText

/-- Error classes `translateWithGemini` can return: `genai.NewClient`
failure, a `GenerateContent` network / malformed-response failure, or the
20-second context deadline firing. -/
inductive GeminiError
  | clientInit
  | callFailed
  | deadlineExceeded
deriving DecidableEq, Repr

/-- Behaviour of the remote Gemini service during one run: client
construction fails, the generate call fails (network error, malformed
response), the call outlives the context deadline, or it succeeds with
`resp.Text() = body`. -/
inductive RemoteOutcome
  | clientError
  | generateError
  | timeout
  | response (body : String)
deriving DecidableEq, Repr

/-- Whether the remote call returns without error. -/
def RemoteOutcome.succeeds : RemoteOutcome → Bool
  | .response _ => true
  | _ => false

/-- `translateWithGemini` (main.go lines 262-276): on any failure the
error propagates; on success the result is
`strings.TrimSpace(resp.Text())`.  `apiKey` and `model` are passed to the
external client and do not affect the modelled control flow. -/
def translateWithGemini (apiKey model prompt text : String)
    (remote : RemoteOutcome) : Except GeminiError String :=
  match remote with
  | .clientError => .error .clientInit
  | .generateError => .error .callFailed
  | .timeout => .error .deadlineExceeded
  | .response body => .ok (goTrimSpace body)

/-- The request text sent to `GenerateContent`:
`fmt.Sprintf("%s\n\n%s", prompt, text)`. -/
def geminiRequest (prompt text : String) : String :=
  prompt ++ "\n\n" ++ text

/-- `clipboard.WriteAll` as a clipboard-state transformer: on success the
clipboard becomes `s`, on failure it is unchanged.  The Go code discards
the returned error. -/
def writeAll (ok : Bool) (s clip : String) : String :=
  if ok then s else clip

/-- `restoreClipboard` (main.go lines 294-298): write the snapshot back
only when it is non-empty. -/
def restoreClipboard (ok : Bool) (s clip : String) : String :=
  if s ≠ "" then writeAll ok s clip else clip

/-- Environment of one orchestration run: everything outside the process
that the run observes or mutates. -/
structure RunEnv where
  /-- clipboard content when the run starts -/
  clip0 : String
  /-- whether the first `clipboard.ReadAll` succeeds (on failure Go yields `""`) -/
  read1Ok : Bool
  /-- clipboard content after the simulated copy keystroke and the 100 ms settle delay -/
  afterCopy : String
  /-- whether the second `clipboard.ReadAll` succeeds -/
  read2Ok : Bool
  /-- whether `clipboard.WriteAll(txt)` in the replace step succeeds -/
  writeReplaceOk : Bool
  /-- whether the `clipboard.WriteAll` inside `restoreClipboard` succeeds -/
  writeRestoreOk : Bool
  /-- behaviour of the remote Gemini call for this run -/
  remote : RemoteOutcome
deriving DecidableEq, Repr

/-- Observable outcome of one run of `processSelectedText`. -/
structure RunResult where
  /-- clipboard content when the run returns -/
  finalClip : String
  /-- whether `translateWithGemini` was invoked -/
  translateInvoked : Bool
  /-- the request text sent to the remote service, when invoked -/
  requestText : Option String
  /-- whether the simulated paste keystroke was issued -/
  pasteIssued : Bool
  /-- clipboard content at the moment the paste keystroke fires -/
  pastedText : Option String
  /-- whether `restoreClipboard` was called before the run ended -/
  restoreInvoked : Bool
deriving DecidableEq, Repr

/-- `processSelectedText` (main.go lines 237-260): snapshot, simulated
copy, re-read, empty-selection short circuit, prompt resolution, remote
call, replace + paste + restore on success, bare return on failure. -/
def processSelectedText (cfg : Config) (selectedIndex : Int) (env : RunEnv) :
    RunResult :=
  let prev := if env.read1Ok then env.clip0 else ""
  let clip1 := env.afterCopy
  let text := if env.read2Ok then clip1 else ""
  if goTrimSpace text = "" then
    { finalClip := restoreClipboard env.writeRestoreOk prev clip1
      translateInvoked := false
      requestText := none
      pasteIssued := false
      pastedText := none
      restoreInvoked := true }
  else
    let promptText := resolvePrompt selectedIndex cfg.prompts
    match translateWithGemini cfg.apiKey cfg.model promptText text env.remote with
    | .error _ =>
        { finalClip := clip1
          translateInvoked := true
          requestText := some (geminiRequest promptText text)
          pasteIssued := false
          pastedText := none
          restoreInvoked := false }
    | .ok txt =>
        let clip2 := writeAll env.writeReplaceOk txt clip1
        { finalClip := restoreClipboard env.writeRestoreOk prev clip2
          translateInvoked := true
          requestText := some (geminiRequest promptText text)
          pasteIssued := true
          pastedText := some clip2
          restoreInvoked := true }

/-- The `20*time.Second` deadline that `translateWithGemini` installs via
`context.WithTimeout` (main.go line 263), in seconds. -/
def geminiTimeoutSeconds : Nat := 20

/-- The `GenerateContent` call under the run's context deadline, modelled
from Go `context.WithTimeout` semantics (the context is an external
collaborator): a call whose latency is below the deadline returns its
result after `latency` seconds; a call whose latency reaches the deadline
— or that never returns, `latency = none` — is cancelled when the deadline
fires.  Returns the call's result together with the number of seconds the
run spends blocked in the call. -/
def generateUnderDeadline (latency : Option Nat) (body : String) :
    Except GeminiError String × Nat :=
  match latency with
  | none => (.error .deadlineExceeded, geminiTimeoutSeconds)
  | some t =>
      if t < geminiTimeoutSeconds then (.ok (goTrimSpace body), t)
      else (.error .deadlineExceeded, geminiTimeoutSeconds)

/-- Phase of one `runHotkeyListener` goroutine (main.go lines 219-235):
`spawned` = the goroutine exists but has not yet executed `hook.Register`
and `hook.Start`; `listening` = registered, its event loop running and
dispatching matching key releases; `stopped` = it received on its closed
stop channel and executed `hook.StopEvent()`. -/
inductive ListenerPhase
  | spawned
  | listening
  | stopped
deriving DecidableEq, Repr

/-- Joint state of the previously running listener goroutine and the
goroutine spawned by `restartHotkeyListener` (main.go lines 209-217).
`oldStopClosed` records whether `close(t.hotkeyStopChan)` has executed;
`fresh = none` until the rebind spawns the replacement goroutine. -/
structure RebindState where
  old : ListenerPhase
  oldStopClosed : Bool
  fresh : Option ListenerPhase
deriving DecidableEq, Repr

/-- Interleaved execution of the rebind and the two listener goroutines.
The mutex in `restartHotkeyListener` makes closing the old stop channel
and spawning the replacement a single atomic step, but nothing makes the
spawned goroutine wait for the old one to observe its closed channel. -/
inductive RebindStep : RebindState → RebindState → Prop
  /-- `restartHotkeyListener`: under the mutex, `close(t.hotkeyStopChan)`,
  allocate a fresh channel, and `go t.runHotkeyListener()`. -/
  | rebind (s : RebindState) (h1 : s.oldStopClosed = false) (h2 : s.fresh = none) :
      RebindStep s { old := s.old, oldStopClosed := true, fresh := some .spawned }
  /-- the old goroutine runs `hook.Register` and `hook.Start` and enters its `select`. -/
  | oldRegisters (s : RebindState) (h : s.old = .spawned) :
      RebindStep s { s with old := .listening }
  /-- the spawned goroutine runs `hook.Register` and `hook.Start` and enters its `select`. -/
  | freshRegisters (s : RebindState) (h : s.fresh = some .spawned) :
      RebindStep s { s with fresh := some .listening }
  /-- the old goroutine's `select` receives on the closed stop channel and
  it executes `hook.StopEvent()`. -/
  | oldObservesStop (s : RebindState) (h1 : s.old = .listening)
      (h2 : s.oldStopClosed = true) :
      RebindStep s { s with old := .stopped }

/-- A listener dispatches hotkey events only while `listening`. -/
def ListenerPhase.live : ListenerPhase → Bool
  | .listening => true
  | _ => false

/-! ### Helper lemmas about trimming -/

lemma head?_dropWhile_false (p : Char → Bool) (l : List Char) (c : Char)
    (h : (l.dropWhile p).head? = some c) : p c = false := by
  induction l with
  | nil => simp [List.dropWhile] at h
  | cons a l ih =>
      rw [List.dropWhile_cons] at h
      split at h
      · exact ih h
      · rename_i hpa
        simp only [List.head?_cons, Option.some.injEq] at h
        subst h
        simpa using hpa

lemma getLast?_dropWhile_of_ne_nil (p : Char → Bool) (l : List Char)
    (h : l.dropWhile p ≠ []) : (l.dropWhile p).getLast? = l.getLast? := by
  induction l with
  | nil => simp [List.dropWhile] at h
  | cons a l ih =>
      rw [List.dropWhile_cons]
      rw [List.dropWhile_cons] at h
      split
      · rename_i hpa
        rw [if_pos hpa] at h
        have hl : l ≠ [] := by
          intro hnil
          exact h (by simp [hnil, List.dropWhile])
        rw [ih h]
        cases l with
        | nil => exact absurd rfl hl
        | cons b m => rw [List.getLast?_cons_cons]
      · rfl

/-- A trimmed string never starts with a White_Space rune. -/
lemma goTrimSpace_head (s : String) (c : Char)
    (h : (goTrimSpace s).data.head? = some c) : isGoSpace c = false := by
  unfold goTrimSpace at h
  simp only [List.head?_reverse] at h
  have hne : (s.data.dropWhile isGoSpace).reverse.dropWhile isGoSpace ≠ [] := by
    intro hnil
    rw [hnil] at h
    simp at h
  rw [getLast?_dropWhile_of_ne_nil _ _ hne, List.getLast?_reverse] at h
  exact head?_dropWhile_false _ _ _ h

/-- A trimmed string never ends with a White_Space rune. -/
lemma goTrimSpace_getLast (s : String) (c : Char)
    (h : (goTrimSpace s).data.getLast? = some c) : isGoSpace c = false := by
  unfold goTrimSpace at h
  simp only [List.getLast?_reverse] at h
  exact head?_dropWhile_false _ _ _ h

/-! ### Concrete fixtures used by witnesses and counterexamples -/

/-- A representative configuration (prompts list empty, defaults). -/
def cfg0 : Config :=
  { apiKey := "key"
    model := "gemini-2.5-flash"
    hotkey := "rshift"
    prompts := []
    selectedPrompt := defaultPromptText }

/-! ### Claim theorems -/

/-- C2: a run that starts with a non-empty clipboard content `C` captured
as the snapshot and whose translation call returns without error ends with
the clipboard equal to `C` — the snapshot-mutate-restore sequence
round-trips the clipboard (the restore write is assumed to succeed, the
clipboard being an assumed-correct platform primitive). -/
theorem successful_run_roundtrips_clipboard
    (cfg : Config) (i : Int) (env : RunEnv)
    (h1 : env.read1Ok = true) (h2 : env.clip0 ≠ "")
    (h3 : env.remote.succeeds = true) (h4 : env.writeRestoreOk = true) :
    (processSelectedText cfg i env).finalClip = env.clip0 := by
  cases hr : env.remote with
  | response body =>
      by_cases htext : goTrimSpace (if env.read2Ok then env.afterCopy else "") = "" <;>
        simp [processSelectedText, translateWithGemini, restoreClipboard, writeAll,
          h1, h2, h4, hr, htext]
  | clientError => rw [hr] at h3; simp [RemoteOutcome.succeeds] at h3
  | generateError => rw [hr] at h3; simp [RemoteOutcome.succeeds] at h3
  | timeout => rw [hr] at h3; simp [RemoteOutcome.succeeds] at h3

/-- Witness for C2, the spec's own scenario: clipboard "hello world",
selection "bonjour", remote returns "hello"; the clipboard ends back at
"hello world". -/
theorem successful_run_roundtrips_clipboard_witness :
    (RunEnv.mk "hello world" true "bonjour" true true true (.response "hello")).read1Ok = true ∧
    (RunEnv.mk "hello world" true "bonjour" true true true (.response "hello")).clip0 ≠ "" ∧
    (RunEnv.mk "hello world" true "bonjour" true true true (.response "hello")).remote.succeeds = true ∧
    (RunEnv.mk "hello world" true "bonjour" true true true (.response "hello")).writeRestoreOk = true ∧
    (processSelectedText cfg0 0
      (RunEnv.mk "hello world" true "bonjour" true true true (.response "hello"))).finalClip =
      "hello world" :=
  ⟨rfl, by decide, rfl, rfl,
    successful_run_roundtrips_clipboard cfg0 0 _ rfl (by decide) rfl rfl⟩

/-- C3: when the captured clipboard text trims to the empty string the
run never invokes the remote service and never builds a request; it calls
`restoreClipboard` on the snapshot and returns. -/
theorem empty_selection_short_circuits
    (cfg : Config) (i : Int) (env : RunEnv)
    (h : goTrimSpace (if env.read2Ok then env.afterCopy else "") = "") :
    (processSelectedText cfg i env).translateInvoked = false ∧
    (processSelectedText cfg i env).requestText = none ∧
    (processSelectedText cfg i env).pasteIssued = false ∧
    (processSelectedText cfg i env).restoreInvoked = true := by
  simp [processSelectedText, h]

/-- Witness for C3, the spec's scenario: clipboard empty, selection is
whitespace only; no remote call happens. -/
theorem empty_selection_short_circuits_witness :
    goTrimSpace (if (RunEnv.mk "" true "  \t " true true true (.response "x")).read2Ok
        then (RunEnv.mk "" true "  \t " true true true (.response "x")).afterCopy else "") = "" ∧
    (processSelectedText cfg0 0
        (RunEnv.mk "" true "  \t " true true true (.response "x"))).translateInvoked = false ∧
    (processSelectedText cfg0 0
        (RunEnv.mk "" true "  \t " true true true (.response "x"))).requestText = none ∧
    (processSelectedText cfg0 0
        (RunEnv.mk "" true "  \t " true true true (.response "x"))).pasteIssued = false ∧
    (processSelectedText cfg0 0
        (RunEnv.mk "" true "  \t " true true true (.response "x"))).restoreInvoked = true :=
  ⟨by decide, empty_selection_short_circuits cfg0 0 _ (by decide)⟩

/-- C4: `restoreClipboard` writes only a non-empty snapshot — an empty
snapshot leaves the clipboard as-is — and consequently a successful run
whose snapshot read failed or found an empty clipboard ends with the
clipboard holding the translation result. -/
theorem restore_skips_empty_snapshot :
    (∀ ok clip, restoreClipboard ok "" clip = clip) ∧
    (∀ ok s clip, s ≠ "" → restoreClipboard ok s clip = writeAll ok s clip) ∧
    (∀ (cfg : Config) (i : Int) (env : RunEnv),
      (env.read1Ok = false ∨ env.clip0 = "") →
      env.writeReplaceOk = true →
      goTrimSpace (if env.read2Ok then env.afterCopy else "") ≠ "" →
      ∀ body, env.remote = .response body →
        (processSelectedText cfg i env).finalClip = goTrimSpace body) := by
  refine ⟨?_, ?_, ?_⟩
  · intro ok clip; simp [restoreClipboard]
  · intro ok s clip hs; simp [restoreClipboard, hs]
  · intro cfg i env hprev hwr htext body hr
    have hprev0 : (if env.read1Ok then env.clip0 else "") = "" := by
      rcases hprev with h | h <;> simp [h]
    simp [processSelectedText, translateWithGemini, hr, htext, hprev0,
      restoreClipboard, writeAll, hwr]

/-- Witness for C4: snapshot read succeeds on an empty clipboard, the
remote returns " hi " and the clipboard ends holding "hi". -/
theorem restore_skips_empty_snapshot_witness :
    ((RunEnv.mk "" true "hola" true true true (.response " hi ")).read1Ok = false ∨
      (RunEnv.mk "" true "hola" true true true (.response " hi ")).clip0 = "") ∧
    (processSelectedText cfg0 0
        (RunEnv.mk "" true "hola" true true true (.response " hi "))).finalClip =
      goTrimSpace " hi " :=
  ⟨Or.inr rfl,
    restore_skips_empty_snapshot.2.2 cfg0 0 _ (Or.inr rfl) rfl (by decide) " hi " rfl⟩

/-- C5: prompt resolution — index 0 gives the built-in default prompt,
an index `i ≥ 1` whose predecessor is a valid index into the user prompt
list gives that prompt's text, and every out-of-range index falls back to
the default prompt. -/
theorem resolvePrompt_spec :
    (∀ ps, resolvePrompt 0 ps = defaultPromptText) ∧
    (∀ (i : Int) (ps : List Prompt) (p : Prompt), 1 ≤ i →
      ps.get? (i - 1).toNat = some p → resolvePrompt i ps = p.text) ∧
    (∀ (i : Int) (ps : List Prompt), ¬(0 < i ∧ i - 1 < (ps.length : Int)) →
      resolvePrompt i ps = defaultPromptText) := by
  refine ⟨?_, ?_, ?_⟩
  · intro ps; simp [resolvePrompt]
  · intro i ps p h1 h2
    obtain ⟨hlt, hget⟩ := List.get?_eq_some.mp h2
    have hcond : 0 < i ∧ i - 1 < (ps.length : Int) := ⟨by omega, by omega⟩
    rw [resolvePrompt, dif_pos hcond]
    exact congrArg Prompt.text hget
  · intro i ps h; rw [resolvePrompt, dif_neg h]

/-- Witness for C5: with two user prompts, index 2 resolves to the second
prompt's text, and index 0 resolves to the default. -/
theorem resolvePrompt_spec_witness :
    resolvePrompt 0 [Prompt.mk "a" "A", Prompt.mk "b" "B"] = defaultPromptText ∧
    (1 ≤ (2 : Int) ∧
      [Prompt.mk "a" "A", Prompt.mk "b" "B"].get? ((2 : Int) - 1).toNat =
        some (Prompt.mk "b" "B")) ∧
    resolvePrompt 2 [Prompt.mk "a" "A", Prompt.mk "b" "B"] = "B" ∧
    resolvePrompt 7 [Prompt.mk "a" "A", Prompt.mk "b" "B"] = defaultPromptText :=
  ⟨resolvePrompt_spec.1 _, ⟨by decide, by decide⟩,
    resolvePrompt_spec.2.1 2 _ (Prompt.mk "b" "B") (by decide) (by decide),
    resolvePrompt_spec.2.2 7 _ (by decide)⟩

/-- C1 counterexample: with snapshot "saved" and captured selection
"selection", a failing translation call ends the run with the clipboard
still holding "selection" and `restoreClipboard` never invoked — the
snapshot is not restored. -/
theorem translate_failure_no_restore_cex :
    (processSelectedText cfg0 0
        (RunEnv.mk "saved" true "selection" true true true .generateError)).translateInvoked
      = true ∧
    (processSelectedText cfg0 0
        (RunEnv.mk "saved" true "selection" true true true .generateError)).restoreInvoked
      = false ∧
    (processSelectedText cfg0 0
        (RunEnv.mk "saved" true "selection" true true true .generateError)).finalClip
      = "selection" ∧
    "selection" ≠ "saved" := by decide

/-- C1 amended: when the translation call fails, the run aborts — nothing
is written, no paste is issued — but the snapshot is NOT restored: the
clipboard is left holding the captured selection. -/
theorem translate_failure_aborts_without_restore
    (cfg : Config) (i : Int) (env : RunEnv)
    (hfail : env.remote.succeeds = false)
    (htext : goTrimSpace (if env.read2Ok then env.afterCopy else "") ≠ "") :
    (processSelectedText cfg i env).translateInvoked = true ∧
    (processSelectedText cfg i env).pasteIssued = false ∧
    (processSelectedText cfg i env).restoreInvoked = false ∧
    (processSelectedText cfg i env).finalClip = env.afterCopy := by
  cases hr : env.remote with
  | response body => rw [hr] at hfail; simp [RemoteOutcome.succeeds] at hfail
  | clientError => simp [processSelectedText, translateWithGemini, hr, htext]
  | generateError => simp [processSelectedText, translateWithGemini, hr, htext]
  | timeout => simp [processSelectedText, translateWithGemini, hr, htext]

/-- Witness for the amended C1: a timed-out call leaves the captured text
"hello" on the clipboard with no restore. -/
theorem translate_failure_aborts_without_restore_witness :
    (RunEnv.mk "saved" true "hello" true true true .timeout).remote.succeeds = false ∧
    goTrimSpace (if (RunEnv.mk "saved" true "hello" true true true .timeout).read2Ok
        then (RunEnv.mk "saved" true "hello" true true true .timeout).afterCopy else "") ≠ "" ∧
    (processSelectedText cfg0 0
        (RunEnv.mk "saved" true "hello" true true true .timeout)).restoreInvoked = false ∧
    (processSelectedText cfg0 0
        (RunEnv.mk "saved" true "hello" true true true .timeout)).finalClip = "hello" :=
  ⟨rfl, by decide,
    (translate_failure_aborts_without_restore cfg0 0
      (RunEnv.mk "saved" true "hello" true true true .timeout) rfl (by decide)).2.2.1,
    (translate_failure_aborts_without_restore cfg0 0
      (RunEnv.mk "saved" true "hello" true true true .timeout) rfl (by decide)).2.2.2⟩

/-- C6: the translation call's context deadline is 20 seconds, inside the
spec's 15–20 second range; under the modelled `context.WithTimeout`
semantics every call — including one that never returns — blocks the run
for at most the deadline, and a never-returning or over-deadline call
comes back as a `deadlineExceeded` error rather than blocking. -/
theorem translate_timeout_bound :
    geminiTimeoutSeconds = 20 ∧
    15 ≤ geminiTimeoutSeconds ∧ geminiTimeoutSeconds ≤ 20 ∧
    (∀ latency body, (generateUnderDeadline latency body).2 ≤ geminiTimeoutSeconds) ∧
    (∀ body, generateUnderDeadline none body =
      (.error .deadlineExceeded, geminiTimeoutSeconds)) ∧
    (∀ a m p t, translateWithGemini a m p t .timeout = .error .deadlineExceeded) := by
  refine ⟨rfl, by norm_num [geminiTimeoutSeconds], by norm_num [geminiTimeoutSeconds],
    ?_, ?_, ?_⟩
  · intro latency body
    cases latency with
    | none => simp [generateUnderDeadline]
    | some t =>
        simp only [generateUnderDeadline]
        split
        · exact le_of_lt (by assumption)
        · exact le_refl _
  · intro body; rfl
  · intro a m p t; rfl

/-- Witness for C6: a call with latency 5 s returns in 5 s; a
never-returning call is cut off at the 20-second deadline. -/
theorem translate_timeout_bound_witness :
    (generateUnderDeadline (some 5) "x").2 ≤ geminiTimeoutSeconds ∧
    generateUnderDeadline none "x" = (.error .deadlineExceeded, geminiTimeoutSeconds) :=
  ⟨translate_timeout_bound.2.2.2.1 (some 5) "x", translate_timeout_bound.2.2.2.2.1 "x"⟩

/-- C7 counterexample: a successful call whose response is all whitespace
yields the empty-string result with no error; the run writes "" to the
clipboard and pastes it — an empty result is not treated as a failure. -/
theorem empty_result_pasted_cex :
    translateWithGemini "key" "gemini-2.5-flash" defaultPromptText "barev" (.response "   ")
      = .ok (goTrimSpace "   ") ∧
    goTrimSpace "   " = "" ∧
    (processSelectedText cfg0 0
        (RunEnv.mk "saved" true "barev" true true true (.response "   "))).pasteIssued = true ∧
    (processSelectedText cfg0 0
        (RunEnv.mk "saved" true "barev" true true true (.response "   "))).pastedText
      = some "" :=
  ⟨rfl, by decide, by decide, by decide⟩

/-- C7 amended: a translation call that succeeds with an empty (or
all-whitespace) result is treated as a success: the empty string is
written to the clipboard and pasted, after which the snapshot restore runs
exactly as in any successful run. -/
theorem empty_result_treated_as_success
    (cfg : Config) (i : Int) (env : RunEnv) (body : String)
    (hr : env.remote = .response body) (hbody : goTrimSpace body = "")
    (htext : goTrimSpace (if env.read2Ok then env.afterCopy else "") ≠ "")
    (hw : env.writeReplaceOk = true) :
    (processSelectedText cfg i env).pasteIssued = true ∧
    (processSelectedText cfg i env).pastedText = some "" ∧
    (processSelectedText cfg i env).restoreInvoked = true := by
  simp [processSelectedText, translateWithGemini, hr, hbody, htext, writeAll, hw]

/-- Witness for the amended C7. -/
theorem empty_result_treated_as_success_witness :
    (RunEnv.mk "saved" true "barev" true true true (.response " ")).remote
      = .response " " ∧
    goTrimSpace " " = "" ∧
    (processSelectedText cfg0 0
        (RunEnv.mk "saved" true "barev" true true true (.response " "))).pasteIssued = true ∧
    (processSelectedText cfg0 0
        (RunEnv.mk "saved" true "barev" true true true (.response " "))).pastedText
      = some "" :=
  ⟨rfl, by decide,
    (empty_result_treated_as_success cfg0 0
      (RunEnv.mk "saved" true "barev" true true true (.response " ")) " "
      rfl (by decide) (by decide) rfl).1,
    (empty_result_treated_as_success cfg0 0
      (RunEnv.mk "saved" true "barev" true true true (.response " ")) " "
      rfl (by decide) (by decide) rfl).2.1⟩

/-- C8 counterexample: when the replace-step clipboard write fails, the
run still issues the simulated paste — pasting the stale captured text —
so the remaining steps are not aborted. -/
theorem write_failure_still_pastes_cex :
    (processSelectedText cfg0 0
        (RunEnv.mk "saved" true "barev" true false true (.response "hello"))).pasteIssued
      = true ∧
    (processSelectedText cfg0 0
        (RunEnv.mk "saved" true "barev" true false true (.response "hello"))).pastedText
      = some "barev" := by decide

/-- C8 amended: the error of the replace-step clipboard write is
discarded: the simulated paste is issued regardless — pasting whatever the
clipboard then holds, i.e. the stale captured text — and the snapshot
restore still runs. -/
theorem write_failure_ignored
    (cfg : Config) (i : Int) (env : RunEnv)
    (hw : env.writeReplaceOk = false)
    (hs : env.remote.succeeds = true)
    (htext : goTrimSpace (if env.read2Ok then env.afterCopy else "") ≠ "") :
    (processSelectedText cfg i env).pasteIssued = true ∧
    (processSelectedText cfg i env).pastedText = some env.afterCopy ∧
    (processSelectedText cfg i env).restoreInvoked = true := by
  cases hr : env.remote with
  | response body =>
      simp [processSelectedText, translateWithGemini, hr, htext, writeAll, hw]
  | clientError => rw [hr] at hs; simp [RemoteOutcome.succeeds] at hs
  | generateError => rw [hr] at hs; simp [RemoteOutcome.succeeds] at hs
  | timeout => rw [hr] at hs; simp [RemoteOutcome.succeeds] at hs

/-- Witness for the amended C8. -/
theorem write_failure_ignored_witness :
    (RunEnv.mk "saved" true "hola" true false true (.response "hi")).writeReplaceOk = false ∧
    (RunEnv.mk "saved" true "hola" true false true (.response "hi")).remote.succeeds = true ∧
    (processSelectedText cfg0 0
        (RunEnv.mk "saved" true "hola" true false true (.response "hi"))).pasteIssued = true ∧
    (processSelectedText cfg0 0
        (RunEnv.mk "saved" true "hola" true false true (.response "hi"))).pastedText
      = some "hola" :=
  ⟨rfl, rfl,
    (write_failure_ignored cfg0 0
      (RunEnv.mk "saved" true "hola" true false true (.response "hi")) rfl rfl (by decide)).1,
    (write_failure_ignored cfg0 0
      (RunEnv.mk "saved" true "hola" true false true (.response "hi")) rfl rfl (by decide)).2.1⟩

/-- C9 counterexample: from a state with the old listener live, the
rebind step (close stop channel + spawn) followed by the fresh goroutine
registering reaches a state in which BOTH listeners are live at once —
the old listener has not yet observed its closed stop channel when the
new one registers. -/
theorem rebind_overlap_cex :
    RebindStep (RebindState.mk .listening false none)
      (RebindState.mk .listening true (some .spawned)) ∧
    RebindStep (RebindState.mk .listening true (some .spawned))
      (RebindState.mk .listening true (some .listening)) ∧
    (RebindState.mk .listening true (some .listening)).old.live = true ∧
    ((RebindState.mk .listening true (some .listening)).fresh.map
      ListenerPhase.live) = some true :=
  ⟨.rebind _ rfl rfl, .freshRegisters _ rfl, rfl, rfl⟩

/-- C9 amended: `restartHotkeyListener` closes the old listener's stop
channel and spawns the new listener in one mutex-guarded step without
waiting for the old listener to stop, so the new listener can register
while the old one is still live; the old listener unregisters
asynchronously when its `select` observes the closed channel, and once
stopped it never becomes live again (so it dispatches nothing further). -/
theorem restartHotkeyListener_async_stop :
    (∀ s : RebindState, s.oldStopClosed = false → s.fresh = none →
      RebindStep s (RebindState.mk s.old true (some .spawned))) ∧
    (∀ s : RebindState, s.old = .listening → s.oldStopClosed = true →
      RebindStep s { s with old := .stopped }) ∧
    (∀ s t : RebindState, RebindStep s t → s.old = .stopped → t.old = .stopped) := by
  refine ⟨?_, ?_, ?_⟩
  · intro s h1 h2; exact .rebind s h1 h2
  · intro s h1 h2; exact .oldObservesStop s h1 h2
  · intro s t hstep hold
    cases hstep with
    | rebind h1 h2 => exact hold
    | oldRegisters h => simp [h] at hold
    | freshRegisters h => exact hold
    | oldObservesStop h1 h2 => rfl

/-- Witness for the amended C9: a concrete rebind followed by the old
listener observing the stop signal; afterwards any step keeps it
stopped. -/
theorem restartHotkeyListener_async_stop_witness :
    RebindStep (RebindState.mk .listening false none)
      (RebindState.mk .listening true (some .spawned)) ∧
    RebindStep (RebindState.mk .listening true (some .spawned))
      (RebindState.mk .stopped true (some .spawned)) ∧
    ((RebindState.mk .stopped true (some .spawned)).old = .stopped →
      ∀ t : RebindState,
        RebindStep (RebindState.mk .stopped true (some .spawned)) t →
        t.old = .stopped) :=
  ⟨restartHotkeyListener_async_stop.1 (RebindState.mk .listening false none) rfl rfl,
    restartHotkeyListener_async_stop.2.1 (RebindState.mk .listening true (some .spawned))
      rfl rfl,
    fun h t hstep => restartHotkeyListener_async_stop.2.2 _ t hstep h⟩

/-- C10: for every response text returned by the remote service the
translation result is exactly that response with leading and trailing
White_Space runes removed, and the result never starts or ends with such a
rune. -/
theorem translateWithGemini_trims (a m p t body : String) :
    translateWithGemini a m p t (.response body) = .ok (goTrimSpace body) ∧
    (∀ c, (goTrimSpace body).data.head? = some c → isGoSpace c = false) ∧
    (∀ c, (goTrimSpace body).data.getLast? = some c → isGoSpace c = false) :=
  ⟨rfl, fun c h => goTrimSpace_head body c h, fun c h => goTrimSpace_getLast body c h⟩

/-- Witness for C10: the response " hi " is returned as "hi". -/
theorem translateWithGemini_trims_witness :
    translateWithGemini "key" "gemini-2.5-flash" defaultPromptText "text"
      (.response " hi ") = .ok (goTrimSpace " hi ") ∧
    goTrimSpace " hi " = "hi" :=
  ⟨(translateWithGemini_trims "key" "gemini-2.5-flash" defaultPromptText "text" " hi ").1,
    by decide⟩

end LingoSnap
